import Mathlib

/-!
Shallow embedding of the blobstore clustermgr disk/node manager
(blobstore/clustermgr/cluster/cluster.go) and proofs about it.

Machine integers of the source (int64 counters, ordinals) are modelled as
`Nat`/`Int`; timestamps are an abstract integer time line.  Fallible
persistence calls are modelled by explicit boolean outcome parameters, and
every persistence invocation bumps a call counter in the state.  Concurrency
is modelled by sequential interleaving of whole operations: within one
operation the lock-protected sections read and write a single global state in
program order.
-/

abbrev DiskID := Nat
abbrev NodeID := Nat

/-- proto.InvalidNodeID. -/
def invalidNodeID : NodeID := 0

inductive DiskStatus where
  | normal
  | broken
  | repairing
  | repaired
  | dropped
deriving DecidableEq, Repr

/-- The validSetStatus ordinal table of cluster.go: Normal 0, Broken 1,
Repairing 2, Repaired 3, Dropped 4.  Statuses outside this table (rejected
with ErrInvalidStatus in the source) are outside the model, the enumeration
being total. -/
def validSetStatus : DiskStatus → Nat
  | .normal => 0
  | .broken => 1
  | .repairing => 2
  | .repaired => 3
  | .dropped => 4

inductive NodeStatus where
  | normal
  | dropped
deriving DecidableEq, Repr

structure diskItem where
  diskID : DiskID
  nodeID : NodeID
  host : Nat
  path : Nat
  idc : Nat
  rack : Nat
  status : DiskStatus
  readonly : Bool
  dropping : Bool
  expireTime : Int
  lastExpireTime : Int
deriving DecidableEq, Repr

/-- Modelled from the spec: `diskItem.needFilter` is outside the given
sources; a "filterable" disk is one whose status is in
{Normal, Broken, Repairing} and still occupies its (host, path) slot. -/
def diskItem.needFilter (d : diskItem) : Bool :=
  match d.status with
  | .normal => true
  | .broken => true
  | .repairing => true
  | .repaired => false
  | .dropped => false

/-- Modelled from the spec: `diskItem.isExpire` is outside the given sources;
a disk is expired when its expire_time lies strictly before now. -/
def diskItem.isExpire (d : diskItem) (now : Int) : Bool := d.expireTime < now

/-- Modelled from the spec: `diskItem.genFilterKey` is outside the given
sources; the host/path filter key of a disk is the pair (host, path). -/
def diskItem.genFilterKey (d : diskItem) : Nat × Nat := (d.host, d.path)

structure nodeItem where
  nodeID : NodeID
  host : Nat
  idc : Nat
  rack : Nat
  nodeSetID : Nat
  status : NodeStatus
  dropping : Bool
  disks : List DiskID
deriving DecidableEq, Repr

/-- Modelled from the spec: `nodeItem.isUsingStatus` is outside the given
sources; node statuses are {Normal, Dropped} and a node is "using" unless it
is Dropped. -/
def nodeItem.isUsingStatus (n : nodeItem) : Bool :=
  match n.status with
  | .normal => true
  | .dropped => false

/-- First-match association lookup, the model of the Go identity maps. -/
def assocFind (id : Nat) : List (Nat × α) → Option α
  | [] => none
  | (k, v) :: rest => if k = id then some v else assocFind id rest

/-- Replace every entry keyed `id` by `(id, v)`, the model of a map store. -/
def updateAssoc (id : Nat) (v : α) : List (Nat × α) → List (Nat × α) :=
  List.map (fun p => if p.1 = id then (id, v) else p)

/-- The manager state: the identity maps allDisks / allNodes, the
hostPathFilter key set, the persisted dropping lists, DiskSet / NodeSet
membership (the topoMgr structures, abstracted to the membership the claims
mention), and a counter of persistence-layer calls. -/
structure MgrState where
  allDisks : List (DiskID × diskItem)
  allNodes : List (NodeID × nodeItem)
  hostPathFilter : List (Nat × Nat)
  droppingDisks : List DiskID
  droppingNodes : List NodeID
  diskSetMembers : List DiskID
  nodeSetMembers : List NodeID
  persistCalls : Nat
deriving DecidableEq, Repr

def MgrState.getDisk (s : MgrState) (id : DiskID) : Option diskItem :=
  assocFind id s.allDisks

def MgrState.getNode (s : MgrState) (id : NodeID) : Option nodeItem :=
  assocFind id s.allNodes

def MgrState.updateDisk (s : MgrState) (id : DiskID) (d : diskItem) : MgrState :=
  { s with allDisks := updateAssoc id d s.allDisks }

def MgrState.updateNode (s : MgrState) (id : NodeID) (n : nodeItem) : MgrState :=
  { s with allNodes := updateAssoc id n s.allNodes }

/-- One persistence-layer call happened (successful or not). -/
def MgrState.persistTick (s : MgrState) : MgrState :=
  { s with persistCalls := s.persistCalls + 1 }

inductive CMErr where
  | invalidStatus
  | diskNotFound
  | changeDiskStatusNotAllow
  | exist
  | illegalArguments
  | diskAbnormalOrNotReadOnly
  | nodeNotFound
  | nodeIsDropping
  | persistErr
deriving DecidableEq, Repr

/-- Embedding of manager.SetStatus (cluster.go 255-345).  `pOk` is the
outcome of the single persistence call of the commit branch
(droppedDisk / updateDiskStatusNoLocked). -/
def SetStatus (s : MgrState) (id : DiskID) (status : DiskStatus)
    (isCommit pOk : Bool) : MgrState × Option CMErr :=
  match s.getDisk id with
  | none => (s, some CMErr.diskNotFound)
  | some disk =>
    let checkErr : Option CMErr :=
      if disk.status = status then none
      else if disk.dropping = true ∧ status ≠ DiskStatus.dropped then
        if isCommit = false then some CMErr.changeDiskStatusNotAllow else none
      else if validSetStatus status < validSetStatus disk.status ∨
          (validSetStatus disk.status + 1 < validSetStatus status ∧
            status ≠ DiskStatus.dropped) then
        if isCommit = false then some CMErr.changeDiskStatusNotAllow else none
      else none
    match checkErr with
    | some e => (s, some e)
    | none =>
      if isCommit = false then (s, none)
      else
        let nodeExist := (s.getNode disk.nodeID).isSome
        if disk.status = status then (s, none)
        else
          let s1 := s.persistTick
          if pOk = false then (s1, some CMErr.persistErr)
          else
            let s2 := if status = DiskStatus.dropped then
                { s1 with droppingDisks := s1.droppingDisks.erase id }
              else s1
            let newDisk := { disk with status := status }
            let s3 := s2.updateDisk id newDisk
            let s4 := if newDisk.needFilter = false then
                { s3 with hostPathFilter := s3.hostPathFilter.erase newDisk.genFilterKey }
              else s3
            let s5 := if nodeExist = true ∧ newDisk.needFilter = false then
                { s4 with diskSetMembers := s4.diskSetMembers.erase id }
              else s4
            (s5, none)

/-- Embedding of manager.CheckDiskInfoDuplicated (cluster.go 221-241).
`reqNodeID` / `reqPath` come from the registering DiskInfo, the `node*`
fields from the registering NodeInfo. -/
def CheckDiskInfoDuplicated (s : MgrState) (diskID : DiskID)
    (reqNodeID : NodeID) (reqPath : Nat)
    (nodeHost nodeIdc nodeRack : Nat) : Option CMErr :=
  match s.getDisk diskID with
  | some di =>
    if di.nodeID = invalidNodeID ∧ reqNodeID ≠ invalidNodeID ∧
        di.host = nodeHost ∧ di.idc = nodeIdc ∧ di.rack = nodeRack then
      none
    else some CMErr.exist
  | none =>
    if (nodeHost, reqPath) ∈ s.hostPathFilter then some CMErr.illegalArguments
    else none

/-- Embedding of manager.applySwitchReadonly (cluster.go 372-391).  The
source writes the bit, persists, and rolls the bit back on failure; the net
sequential effect is: unchanged state on persistence failure. -/
def applySwitchReadonly (s : MgrState) (id : DiskID) (readonly pOk : Bool) :
    MgrState × Option CMErr :=
  match s.getDisk id with
  | none => (s, none)
  | some disk =>
    if disk.readonly = readonly then (s, none)
    else
      let s1 := s.persistTick
      if pOk = false then (s1, some CMErr.persistErr)
      else (s1.updateDisk id { disk with readonly := readonly }, none)

/-- Embedding of manager.applyDroppingDisk (cluster.go 540-597): returns the
"already dropping" indicator and the error.  `pOk` is the outcome of the
addDroppingDisk persistence call.  The pendingEntries side channel of the
commit path is not part of the model. -/
def applyDroppingDisk (s : MgrState) (id : DiskID) (isCommit pOk : Bool) :
    MgrState × Bool × Option CMErr :=
  match s.getDisk id with
  | none => (s, false, some CMErr.diskNotFound)
  | some disk =>
    if disk.dropping = true then (s, true, none)
    else if disk.status ≠ DiskStatus.normal ∨ disk.readonly = false then
      if isCommit = false then (s, false, some CMErr.diskAbnormalOrNotReadOnly)
      else (s, false, none)
    else if isCommit = false then (s, false, none)
    else
      let s1 := s.persistTick
      if pOk = false then (s1, false, some CMErr.persistErr)
      else
        let s2 := { s1 with droppingDisks := s1.droppingDisks ++ [id] }
        let s3 := s2.updateDisk id { disk with dropping := true }
        let s4 := match s.getNode disk.nodeID with
          | some _ => { s3 with diskSetMembers := s3.diskSetMembers.erase id }
          | none => s3
        (s4, false, none)

/-- Clear the dropping flag of a disk (no-op on a missing disk), the final
disk mutation of applyDroppedDisk. -/
def clearDiskDropping (s : MgrState) (id : DiskID) : MgrState :=
  match s.getDisk id with
  | some d => s.updateDisk id { d with dropping := false }
  | none => s

/-- Embedding of manager.applyDroppedDisk (cluster.go 600-621).  `rOk` is the
outcome of the isDroppingDisk read, `pOk` the outcome of the persistence call
inside the nested SetStatus.  A missing disk entry would dereference nil in
the source after SetStatus fails; that impossible path is modelled as leaving
the dropping flag untouched. -/
def applyDroppedDisk (s : MgrState) (id : DiskID) (rOk pOk : Bool) :
    MgrState × Option CMErr :=
  if rOk = false then (s, some CMErr.persistErr)
  else if id ∈ s.droppingDisks then
    let res := SetStatus s id DiskStatus.dropped true pOk
    (clearDiskDropping res.1 id, res.2)
  else (s, none)

/-- The per-disk loop of manager.applyDroppingNode (cluster.go 651-674):
skip non-Normal disks, call applyDroppingDisk on the rest, stop at the first
error.  `pOks` supplies the persistence outcomes of the successive
applyDroppingDisk calls. -/
def droppingNodeDisks (s : MgrState) (ids : List DiskID)
    (isCommit : Bool) (pOks : List Bool) : MgrState × Option CMErr :=
  match ids with
  | [] => (s, none)
  | id :: rest =>
    match s.getDisk id with
    | none => droppingNodeDisks s rest isCommit pOks
    | some d =>
      if d.status ≠ DiskStatus.normal then droppingNodeDisks s rest isCommit pOks
      else
        let res := applyDroppingDisk s id isCommit (pOks.headD true)
        match res.2.2 with
        | some e => (res.1, some e)
        | none => droppingNodeDisks res.1 rest isCommit pOks.tail

/-- Mark a node as dropping in the node map (no-op on a missing node), the
final node mutation of applyDroppingNode. -/
def setNodeDropping (s : MgrState) (nid : NodeID) : MgrState :=
  match s.getNode nid with
  | some n => s.updateNode nid { n with dropping := true }
  | none => s

/-- Embedding of manager.applyDroppingNode (cluster.go 624-689).  `pOk` is
the outcome of the addDroppingNode persistence call. -/
def applyDroppingNode (s : MgrState) (nid : NodeID) (isCommit : Bool)
    (pOks : List Bool) (pOk : Bool) : MgrState × Bool × Option CMErr :=
  match s.getNode nid with
  | none => (s, false, some CMErr.nodeNotFound)
  | some node =>
    if node.isUsingStatus = false ∨ node.dropping = true then (s, true, none)
    else
      let res := droppingNodeDisks s node.disks isCommit pOks
      match res.2 with
      | some e =>
        if isCommit = false then (res.1, false, some e) else (res.1, false, none)
      | none =>
        if isCommit = false then (res.1, false, none)
        else
          let s2 := res.1.persistTick
          if pOk = false then (s2, false, some CMErr.persistErr)
          else
            let s3 := { s2 with droppingNodes := s2.droppingNodes ++ [nid] }
            (setNodeDropping s3 nid, false, none)

/-- Whether a disk of the state is still filterable, as checked per disk of a
node by applyDroppedNode. -/
def diskStillFilterable (s : MgrState) (id : DiskID) : Bool :=
  match s.getDisk id with
  | some d => d.needFilter
  | none => false

/-- Embedding of manager.applyDroppedNode (cluster.go 692-742).  `rOk` is the
outcome of the isDroppingNode read, `pOk` the outcome of the droppedNode
persistence call. -/
def applyDroppedNode (s : MgrState) (nid : NodeID) (rOk pOk : Bool) :
    MgrState × Option CMErr :=
  if rOk = false then (s, some CMErr.persistErr)
  else if nid ∈ s.droppingNodes then
    match s.getNode nid with
    | none => (s, some CMErr.nodeNotFound)
    | some node =>
      if node.disks.any (diskStillFilterable s) then (s, none)
      else
        let s1 := s.persistTick
        if pOk = false then (s1, some CMErr.persistErr)
        else
          let s2 := { s1 with droppingNodes := s1.droppingNodes.erase nid }
          let s3 := s2.updateNode nid { node with status := NodeStatus.dropped, dropping := false }
          ({ s3 with nodeSetMembers := s3.nodeSetMembers.erase nid }, none)
  else (s, none)

/-- Record a disk id in the disks list of its owning node (no-op on a
missing node). -/
def linkDiskToNode (s : MgrState) (nid : NodeID) (did : DiskID) : MgrState :=
  match s.getNode nid with
  | some n => s.updateNode nid { n with disks := n.disks ++ [did] }
  | none => s

/-- Modelled from the spec: the applyAddDisk handler is outside the given
sources.  AddDisk double-checks existence, checks host_path_filter, persists,
registers the disk (a fresh record, dropping = false) and its filter key,
links it to its node and adds it to a DiskSet. -/
def applyAddDisk (s : MgrState) (d : diskItem) (pOk : Bool) :
    MgrState × Option CMErr :=
  if (s.getDisk d.diskID).isSome then (s, none)
  else if d.genFilterKey ∈ s.hostPathFilter then (s, some CMErr.illegalArguments)
  else
    let s1 := s.persistTick
    if pOk = false then (s1, some CMErr.persistErr)
    else
      let newDisk := { d with dropping := false }
      let s2 := { s1 with allDisks := s1.allDisks ++ [(d.diskID, newDisk)] }
      let s3 := { s2 with hostPathFilter := s2.hostPathFilter ++ [d.genFilterKey] }
      let s4 := linkDiskToNode s3 d.nodeID d.diskID
      ({ s4 with diskSetMembers := s4.diskSetMembers ++ [d.diskID] }, none)

/-- Modelled from the spec: the heartbeat handler is outside the given
sources.  It moves last_expire_time to expire_time and sets expire_time to
now + heartbeat_expire_interval. -/
def applyHeartbeat (s : MgrState) (id : DiskID) (now interval : Int) : MgrState :=
  match s.getDisk id with
  | none => s
  | some d =>
    s.updateDisk id { d with lastExpireTime := d.expireTime, expireTime := now + interval }

structure HeartbeatEvent where
  diskID : DiskID
  isAlive : Bool
deriving DecidableEq, Repr

/-- The per-disk body of manager.GetHeartbeatChangeDisks (cluster.go
397-417): the event the sweep emits for one disk, if any. -/
def heartbeatEventFor (interval now : Int) (d : diskItem) : Option HeartbeatEvent :=
  if d.isExpire now = true ∧ d.needFilter = true then
    if 2 * interval ≤ now - d.expireTime then none
    else some { diskID := d.diskID, isAlive := false }
  else if interval < d.expireTime - d.lastExpireTime then
    some { diskID := d.diskID, isAlive := true }
  else none

/-- Embedding of manager.GetHeartbeatChangeDisks (cluster.go 393-420). -/
def GetHeartbeatChangeDisks (s : MgrState) (now interval : Int) : List HeartbeatEvent :=
  (s.allDisks.map Prod.snd).filterMap (heartbeatEventFor interval now)

/-- Insert into a descending-sorted list, keeping it descending. -/
def insertDesc (x : Nat) : List Nat → List Nat
  | [] => [x]
  | y :: ys => if y < x then x :: y :: ys else y :: insertDesc x ys

/-- Sort a list of token counts in descending order.  Modelled from the
spec: the maxHeap container of the source is outside the given sources; the
heap is modelled by keeping its contents sorted so that popping
`idcSuCount` times yields the `idcSuCount` largest tokens. -/
def sortDesc : List Nat → List Nat
  | [] => []
  | x :: xs => insertDesc x (sortDesc xs)

/-- One iteration of the stripe-packing loop of calIDCWritableFunc
(cluster.go 1007-1023): pop the top `k` tokens, subtract 10 from each and
push the positive remainders back. -/
def stripeRound (k : Nat) (tokens : List Nat) : List Nat :=
  let sorted := sortDesc tokens
  sorted.drop k ++ ((sorted.take k).map (fun t => t - 10)).filter (fun t => 0 < t)

/-- The stripe-packing loop itself, fuel-indexed; each executed round adds 10
to the stripe count, exactly as `n += min` with `min = 10` in the source. -/
def calIDCWritableLoop (k : Nat) : Nat → List Nat → Nat
  | 0, _ => 0
  | fuel + 1, tokens =>
    if tokens.length < k then 0
    else 10 + calIDCWritableLoop k fuel (stripeRound k tokens)

/-- Embedding of calIDCWritableFunc (cluster.go 995-1025): turn each node's
free space into `free / itemSize` tokens, keep the positive ones, and run the
stripe-packing loop.  The fuel `sum + 1` is enough for every terminating run
of the source loop, since each round removes at least 10 from the total. -/
def calIDCWritable (k : Nat) (frees : List Nat) (itemSize : Nat) : Nat :=
  let tokens := (frees.map (fun f => f / itemSize)).filter (fun t => 0 < t)
  calIDCWritableLoop k (tokens.sum + 1) tokens

/-- Embedding of the host-aware branch of manager.calculateWritable
(cluster.go 981-1034): the minimum per-IDC stripe count times `N * itemSize`.
`nodeStgs` lists, per IDC, the free bytes of each of its node allocators;
`numIDC` is the number of configured IDCs, `suCount` the largest `N+M+L`, and
`n` that code mode's N. -/
def calculateWritableHostAware (nodeStgs : List (List Nat))
    (numIDC suCount n itemSize : Nat) : Nat :=
  let idcSuCount := suCount / numIDC
  match nodeStgs.map (fun stgs => calIDCWritable idcSuCount stgs itemSize) with
  | [] => 0
  | x :: xs => (xs.foldl min x) * n * itemSize

/-- The manager operations of the claims, with the outcomes of their
persistence calls attached. -/
inductive Op where
  | addDisk (d : diskItem) (pOk : Bool)
  | setStatus (id : DiskID) (st : DiskStatus) (isCommit pOk : Bool)
  | switchReadonly (id : DiskID) (ro pOk : Bool)
  | droppingDisk (id : DiskID) (isCommit pOk : Bool)
  | droppedDisk (id : DiskID) (rOk pOk : Bool)
  | droppingNode (id : NodeID) (isCommit : Bool) (pOks : List Bool) (pOk : Bool)
  | droppedNode (id : NodeID) (rOk pOk : Bool)
  | heartbeat (id : DiskID) (now interval : Int)
deriving DecidableEq, Repr

def stepOp (s : MgrState) : Op → MgrState
  | .addDisk d pOk => (applyAddDisk s d pOk).1
  | .setStatus id st isCommit pOk => (SetStatus s id st isCommit pOk).1
  | .switchReadonly id ro pOk => (applySwitchReadonly s id ro pOk).1
  | .droppingDisk id isCommit pOk => (applyDroppingDisk s id isCommit pOk).1
  | .droppedDisk id rOk pOk => (applyDroppedDisk s id rOk pOk).1
  | .droppingNode id isCommit pOks pOk => (applyDroppingNode s id isCommit pOks pOk).1
  | .droppedNode id rOk pOk => (applyDroppedNode s id rOk pOk).1
  | .heartbeat id now interval => applyHeartbeat s id now interval

def runOps (s : MgrState) (ops : List Op) : MgrState := ops.foldl stepOp s

/-- The per-disk invariant of the claim: a Dropped disk is not dropping. -/
def diskOK (d : diskItem) : Prop := d.status = DiskStatus.dropped → d.dropping = false

def disksOK (l : List (DiskID × diskItem)) : Prop := ∀ p ∈ l, diskOK p.2

/-- "For all disks d, if d.status == Dropped then d.dropping == false". -/
def droppedNotDropping (s : MgrState) : Prop := disksOK s.allDisks

/-- Operations whose commit path never sets a disk status to Dropped
directly: every SetStatus committed with target Dropped is excluded (such a
status change is reserved to applyDroppedDisk, which also clears the
dropping flag). -/
def goodOp : Op → Prop
  | .setStatus _ st isCommit _ => isCommit = true → st ≠ DiskStatus.dropped
  | _ => True

instance : DecidablePred goodOp := by
  intro op
  cases op <;> simp [goodOp] <;> infer_instance

/-- Example node 1 for the concrete states. -/
def exNode1 : nodeItem :=
  { nodeID := 1, host := 1, idc := 1, rack := 1, nodeSetID := 1,
    status := NodeStatus.normal, dropping := false, disks := [10] }

/-- Example disk 10: a freshly registered Normal, writable disk of node 1. -/
def exDisk10 : diskItem :=
  { diskID := 10, nodeID := 1, host := 1, path := 1, idc := 1, rack := 1,
    status := DiskStatus.normal, readonly := false, dropping := false,
    expireTime := 0, lastExpireTime := 0 }

/-- Example manager state: node 1 owning disk 10, both registered. -/
def exState : MgrState :=
  { allDisks := [(10, exDisk10)], allNodes := [(1, exNode1)],
    hostPathFilter := [(1, 1)], droppingDisks := [], droppingNodes := [],
    diskSetMembers := [10], nodeSetMembers := [1], persistCalls := 0 }

/-- Example disk at Repairing status, for the status-ladder claims. -/
def exDisk10Repairing : diskItem := { exDisk10 with status := DiskStatus.repairing }

/-- Example state holding disk 10 at Repairing. -/
def exStateRepairing : MgrState := { exState with allDisks := [(10, exDisk10Repairing)] }

/-- The operation sequence breaking the Dropped-implies-not-dropping claim:
make disk 10 readonly, start dropping it, then commit a direct SetStatus to
Dropped. -/
def exBreakOps : List Op :=
  [Op.switchReadonly 10 true true,
   Op.droppingDisk 10 true true,
   Op.setStatus 10 DiskStatus.dropped true true]

/-- The same drain done through applyDroppedDisk, which respects the
invariant. -/
def exDrainOps : List Op :=
  [Op.switchReadonly 10 true true,
   Op.droppingDisk 10 true true,
   Op.droppedDisk 10 true true]

/-- Example disk 10 made readonly, ready for dropping. -/
def exDisk10Readonly : diskItem := { exDisk10 with readonly := true }

/-- Example state with disk 10 readonly. -/
def exStateReadonly : MgrState := { exState with allDisks := [(10, exDisk10Readonly)] }

/-- Example disk 10 already Dropped. -/
def exDisk10Dropped : diskItem := { exDisk10 with status := DiskStatus.dropped }

/-- Example node 1 marked dropping. -/
def exNode1Dropping : nodeItem := { exNode1 with dropping := true }

/-- Example state where node 1 is in the dropping list and its only disk is
already Dropped (non-filterable). -/
def exStateDropNode : MgrState :=
  { exState with
    allDisks := [(10, exDisk10Dropped)]
    allNodes := [(1, exNode1Dropping)]
    droppingNodes := [1] }

/-- Example disk 10 whose heartbeat expired at time 5. -/
def exDisk10Expired : diskItem := { exDisk10 with expireTime := 5, lastExpireTime := 5 }

/-- Example state with the expired disk 10. -/
def exStateExpired : MgrState := { exState with allDisks := [(10, exDisk10Expired)] }

instance (d : diskItem) : Decidable (diskOK d) := by
  unfold diskOK; infer_instance

instance (l : List (DiskID × diskItem)) : Decidable (disksOK l) := by
  unfold disksOK; infer_instance

instance (s : MgrState) : Decidable (droppedNotDropping s) := by
  unfold droppedNotDropping; infer_instance

instance : DecidablePred goodOp := by
  intro op
  cases op <;> (unfold goodOp; infer_instance)

theorem allDisks_persistTick (s : MgrState) : s.persistTick.allDisks = s.allDisks := rfl

theorem allDisks_updateDisk (s : MgrState) (id : DiskID) (d : diskItem) :
    (s.updateDisk id d).allDisks = updateAssoc id d s.allDisks := rfl

theorem allDisks_updateNode (s : MgrState) (id : NodeID) (n : nodeItem) :
    (s.updateNode id n).allDisks = s.allDisks := rfl

theorem assocFind_mem {α : Type} {l : List (Nat × α)} {id : Nat} {v : α}
    (h : assocFind id l = some v) : (id, v) ∈ l := by
  induction l with
  | nil => simp [assocFind] at h
  | cons q rest ih =>
    obtain ⟨k, w⟩ := q
    by_cases hk : k = id
    · subst hk
      simp [assocFind] at h
      subst h
      exact List.mem_cons_self _ _
    · simp [assocFind, hk] at h
      exact List.mem_cons_of_mem _ (ih h)

theorem mem_updateAssoc {α : Type} {l : List (Nat × α)} {id : Nat} {d : α}
    {p : Nat × α} (h : p ∈ updateAssoc id d l) :
    p = (id, d) ∨ (p.1 ≠ id ∧ p ∈ l) := by
  unfold updateAssoc at h
  obtain ⟨q, hq, he⟩ := List.mem_map.1 h
  by_cases hk : q.1 = id
  · rw [if_pos hk] at he
    exact Or.inl he.symm
  · rw [if_neg hk] at he
    exact Or.inr ⟨he ▸ hk, he ▸ hq⟩

theorem assocFind_updateAssoc {α : Type} {l : List (Nat × α)} {id : Nat} {v d : α}
    (h : assocFind id l = some v) :
    assocFind id (updateAssoc id d l) = some d := by
  induction l with
  | nil => simp [assocFind] at h
  | cons q rest ih =>
    obtain ⟨k, w⟩ := q
    have hu : updateAssoc id d ((k, w) :: rest) =
        (if k = id then (id, d) else (k, w)) :: updateAssoc id d rest := rfl
    by_cases hk : k = id
    · rw [hu, if_pos hk]
      simp [assocFind]
    · rw [hu, if_neg hk]
      simp only [assocFind, hk, if_false, ite_false]
      simp only [assocFind, hk, if_false, ite_false] at h
      exact ih h

/-- Entries of an updated map whose key is not the updated one. -/
def disksOKExcept (id : DiskID) (l : List (DiskID × diskItem)) : Prop :=
  ∀ p ∈ l, p.1 ≠ id → diskOK p.2

theorem disksOK_except {l : List (DiskID × diskItem)} (h : disksOK l) (id : DiskID) :
    disksOKExcept id l := fun p hp _ => h p hp

theorem disksOKExcept_updateAssoc {l : List (DiskID × diskItem)} {id : DiskID}
    (h : disksOK l) (d : diskItem) : disksOKExcept id (updateAssoc id d l) := by
  intro p hp hne
  rcases mem_updateAssoc hp with he | ⟨_, hm⟩
  · exact absurd (by rw [he]) hne
  · exact h p hm

theorem disksOK_updateAssoc_of_except {l : List (DiskID × diskItem)} {id : DiskID}
    (h : disksOKExcept id l) {d : diskItem} (hd : diskOK d) :
    disksOK (updateAssoc id d l) := by
  intro p hp
  rcases mem_updateAssoc hp with he | ⟨hne, hm⟩
  · rw [he]
    exact hd
  · exact h p hm hne

theorem disksOK_updateAssoc {l : List (DiskID × diskItem)} (h : disksOK l)
    {id : DiskID} {d : diskItem} (hd : diskOK d) : disksOK (updateAssoc id d l) :=
  disksOK_updateAssoc_of_except (disksOK_except h id) hd

theorem disksOK_append {l : List (DiskID × diskItem)} (h : disksOK l)
    {id : DiskID} {d : diskItem} (hd : diskOK d) : disksOK (l ++ [(id, d)]) := by
  intro p hp
  rcases List.mem_append.1 hp with hm | hm
  · exact h p hm
  · simp at hm
    rw [hm]
    exact hd

theorem allDisks_setNodeDropping (s : MgrState) (nid : NodeID) :
    (setNodeDropping s nid).allDisks = s.allDisks := by
  unfold setNodeDropping
  cases s.getNode nid <;> rfl

theorem allDisks_linkDiskToNode (s : MgrState) (nid : NodeID) (did : DiskID) :
    (linkDiskToNode s nid did).allDisks = s.allDisks := by
  unfold linkDiskToNode
  cases s.getNode nid <;> rfl

theorem SetStatus_allDisks (s : MgrState) (id : DiskID) (st : DiskStatus) (c p : Bool) :
    (SetStatus s id st c p).1.allDisks = s.allDisks ∨
    ∃ disk, s.getDisk id = some disk ∧ c = true ∧
      (SetStatus s id st c p).1.allDisks =
        updateAssoc id { disk with status := st } s.allDisks := by
  unfold SetStatus
  cases hd : s.getDisk id with
  | none => left; rfl
  | some disk =>
    cases c with
    | false =>
      left
      repeat' split
      all_goals first | rfl | simp_all
    | true =>
      by_cases h1 : disk.status = st
      · left
        simp [h1]
      · by_cases hp : p = false
        · left
          simp [h1, hp, ite_self, allDisks_persistTick]
        · right
          refine ⟨disk, rfl, rfl, ?_⟩
          simp [h1, hp, MgrState.updateDisk, MgrState.persistTick,
            apply_ite MgrState.allDisks, ite_self]

theorem SetStatus_disksOK (s : MgrState) (id : DiskID) (st : DiskStatus) (c p : Bool)
    (hgood : c = true → st ≠ DiskStatus.dropped) (h : disksOK s.allDisks) :
    disksOK (SetStatus s id st c p).1.allDisks := by
  rcases SetStatus_allDisks s id st c p with hA | ⟨disk, _, hc, hA⟩
  · rw [hA]; exact h
  · rw [hA]
    refine disksOK_updateAssoc h ?_
    intro hdrop
    exact absurd (by simpa using hdrop) (hgood hc)

theorem applySwitchReadonly_allDisks (s : MgrState) (id : DiskID) (ro p : Bool) :
    (applySwitchReadonly s id ro p).1.allDisks = s.allDisks ∨
    ∃ disk, s.getDisk id = some disk ∧
      (applySwitchReadonly s id ro p).1.allDisks =
        updateAssoc id { disk with readonly := ro } s.allDisks := by
  unfold applySwitchReadonly
  cases hd : s.getDisk id with
  | none => left; rfl
  | some disk =>
    by_cases h1 : disk.readonly = ro
    · left; simp [h1]
    · by_cases hp : p = false
      · left
        simp [h1, hp, allDisks_persistTick]
      · right
        exact ⟨disk, rfl, by
          simp [h1, hp, MgrState.updateDisk, MgrState.persistTick]⟩

theorem applySwitchReadonly_disksOK (s : MgrState) (id : DiskID) (ro p : Bool)
    (h : disksOK s.allDisks) : disksOK (applySwitchReadonly s id ro p).1.allDisks := by
  rcases applySwitchReadonly_allDisks s id ro p with hA | ⟨disk, hdisk, hA⟩
  · rw [hA]; exact h
  · rw [hA]
    refine disksOK_updateAssoc h ?_
    intro hdrop
    exact h _ (assocFind_mem hdisk) (by simpa using hdrop)

theorem applyDroppingDisk_allDisks (s : MgrState) (id : DiskID) (c p : Bool) :
    (applyDroppingDisk s id c p).1.allDisks = s.allDisks ∨
    ∃ disk, s.getDisk id = some disk ∧ disk.status = DiskStatus.normal ∧
      (applyDroppingDisk s id c p).1.allDisks =
        updateAssoc id { disk with dropping := true } s.allDisks := by
  unfold applyDroppingDisk
  cases hd : s.getDisk id with
  | none => left; rfl
  | some disk =>
    by_cases h1 : disk.dropping = true
    · left; simp [h1]
    · by_cases h2 : disk.status ≠ DiskStatus.normal ∨ disk.readonly = false
      · left
        cases c <;> simp [h1, h2]
      · cases c with
        | false => left; simp [h1, h2]
        | true =>
          by_cases hp : p = false
          · left
            simp [h1, h2, hp, allDisks_persistTick]
          · right
            refine ⟨disk, rfl, ?_, ?_⟩
            · push_neg at h2
              exact h2.1
            · cases hn : s.getNode disk.nodeID <;>
                simp [h1, h2, hp, hn, MgrState.updateDisk, MgrState.persistTick]

theorem applyDroppingDisk_disksOK (s : MgrState) (id : DiskID) (c p : Bool)
    (h : disksOK s.allDisks) : disksOK (applyDroppingDisk s id c p).1.allDisks := by
  rcases applyDroppingDisk_allDisks s id c p with hA | ⟨disk, _, hst, hA⟩
  · rw [hA]; exact h
  · rw [hA]
    refine disksOK_updateAssoc h ?_
    intro hdrop
    rw [show ({ disk with dropping := true } : diskItem).status = disk.status from rfl,
      hst] at hdrop
    exact absurd hdrop (by decide)

theorem allDisks_assocFind_none {s : MgrState} {id : DiskID}
    (h : s.getDisk id = none) : disksOKExcept id s.allDisks → disksOK s.allDisks := by
  intro hex p hp
  by_cases hk : p.1 = id
  · exfalso
    revert h hp
    unfold MgrState.getDisk
    induction s.allDisks with
    | nil => intro _ hp; exact absurd hp (List.not_mem_nil p)
    | cons q rest ih =>
      intro h hp
      obtain ⟨k, w⟩ := q
      by_cases hkq : k = id
      · simp [assocFind, hkq] at h
      · simp only [assocFind, hkq, if_false, ite_false] at h
        rcases List.mem_cons.1 hp with he | hm
        · rw [he] at hk
          exact hkq (by simpa using hk)
        · exact ih h hm
  · exact hex p hp hk

theorem disksOK_clearDiskDropping {s : MgrState} {id : DiskID}
    (hex : disksOKExcept id s.allDisks) : disksOK (clearDiskDropping s id).allDisks := by
  unfold clearDiskDropping
  cases hg : s.getDisk id with
  | none => exact allDisks_assocFind_none hg hex
  | some d =>
    simp only [allDisks_updateDisk]
    exact disksOK_updateAssoc_of_except hex (fun _ => rfl)

theorem applyDroppedDisk_disksOK (s : MgrState) (id : DiskID) (r p : Bool)
    (h : disksOK s.allDisks) : disksOK (applyDroppedDisk s id r p).1.allDisks := by
  unfold applyDroppedDisk
  by_cases hr : r = false
  · simpa [hr] using h
  · rw [if_neg hr]
    by_cases hin : id ∈ s.droppingDisks
    · rw [if_pos hin]
      refine disksOK_clearDiskDropping ?_
      rcases SetStatus_allDisks s id DiskStatus.dropped true p with hA | ⟨disk, hdisk, -, hA⟩
      · rw [hA]
        exact disksOK_except h id
      · rw [hA]
        exact disksOKExcept_updateAssoc h _
    · rw [if_neg hin]
      exact h

theorem droppingNodeDisks_disksOK (ids : List DiskID) (s : MgrState) (c : Bool)
    (pOks : List Bool) (h : disksOK s.allDisks) :
    disksOK (droppingNodeDisks s ids c pOks).1.allDisks := by
  induction ids generalizing s pOks with
  | nil => simpa [droppingNodeDisks] using h
  | cons id rest ih =>
    unfold droppingNodeDisks
    cases hd : s.getDisk id with
    | none => exact ih s pOks h
    | some d =>
      by_cases hst : d.status = DiskStatus.normal
      · have hpres := applyDroppingDisk_disksOK s id c (pOks.headD true) h
        have he2 := List.headD_eq_head? pOks true
        cases he : (applyDroppingDisk s id c (pOks.headD true)).2.2 with
        | some e =>
          rw [he2] at he
          simpa [hst, he] using hpres
        | none =>
          rw [he2] at he
          simpa [hst, he] using ih _ _ (by rwa [he2] at hpres)
      · simpa [hst] using ih s pOks h

theorem applyDroppingNode_disksOK (s : MgrState) (nid : NodeID) (c : Bool)
    (pOks : List Bool) (p : Bool) (h : disksOK s.allDisks) :
    disksOK (applyDroppingNode s nid c pOks p).1.allDisks := by
  unfold applyDroppingNode
  cases hn : s.getNode nid with
  | none => exact h
  | some node =>
    by_cases hu : node.isUsingStatus = false ∨ node.dropping = true
    · simpa [hu] using h
    · have hdd := droppingNodeDisks_disksOK node.disks s c pOks h
      cases he : (droppingNodeDisks s node.disks c pOks).2 with
      | some e =>
        cases c <;> simpa [hu, he] using hdd
      | none =>
        cases c with
        | false => simpa [hu, he] using hdd
        | true =>
          by_cases hp : p = false
          · simpa [hu, he, hp, allDisks_persistTick] using hdd
          · simpa [hu, he, hp, allDisks_setNodeDropping, allDisks_persistTick] using hdd

theorem applyDroppedNode_allDisks (s : MgrState) (nid : NodeID) (r p : Bool) :
    (applyDroppedNode s nid r p).1.allDisks = s.allDisks := by
  unfold applyDroppedNode
  by_cases hr : r = false
  · simp [hr]
  · by_cases hin : nid ∈ s.droppingNodes
    · simp only [hr, hin, ite_true, ite_false, if_pos, if_neg, not_false_iff]
      cases hn : s.getNode nid with
      | none => rfl
      | some node =>
        by_cases ha : node.disks.any (diskStillFilterable s) = true
        · simp [ha]
        · by_cases hp : p = false
          · simp [ha, hp, allDisks_persistTick]
          · simp [ha, hp, allDisks_updateNode, allDisks_persistTick,
              MgrState.updateNode, MgrState.persistTick]
    · simp [hr, hin]

theorem applyAddDisk_disksOK (s : MgrState) (d : diskItem) (p : Bool)
    (h : disksOK s.allDisks) : disksOK (applyAddDisk s d p).1.allDisks := by
  unfold applyAddDisk
  by_cases h1 : (s.getDisk d.diskID).isSome = true
  · simpa [h1] using h
  · by_cases h2 : d.genFilterKey ∈ s.hostPathFilter
    · simpa [h1, h2] using h
    · by_cases hp : p = false
      · simpa [h1, h2, hp, allDisks_persistTick] using h
      · have hfin : (applyAddDisk s d p).1.allDisks =
            s.allDisks ++ [(d.diskID, { d with dropping := false })] := by
          unfold applyAddDisk
          simp [h1, h2, hp, allDisks_linkDiskToNode, MgrState.persistTick]
        unfold applyAddDisk at hfin
        rw [hfin]
        exact disksOK_append h (fun _ => rfl)

theorem applyHeartbeat_disksOK (s : MgrState) (id : DiskID) (now interval : Int)
    (h : disksOK s.allDisks) : disksOK (applyHeartbeat s id now interval).allDisks := by
  unfold applyHeartbeat
  cases hd : s.getDisk id with
  | none => exact h
  | some d =>
    simp only [allDisks_updateDisk]
    refine disksOK_updateAssoc h ?_
    intro hdrop
    exact h _ (assocFind_mem hd) (by simpa using hdrop)

theorem stepOp_disksOK (s : MgrState) (op : Op) (hg : goodOp op)
    (h : disksOK s.allDisks) : disksOK (stepOp s op).allDisks := by
  cases op with
  | addDisk d p => exact applyAddDisk_disksOK s d p h
  | setStatus id st c p => exact SetStatus_disksOK s id st c p hg h
  | switchReadonly id ro p => exact applySwitchReadonly_disksOK s id ro p h
  | droppingDisk id c p => exact applyDroppingDisk_disksOK s id c p h
  | droppedDisk id r p => exact applyDroppedDisk_disksOK s id r p h
  | droppingNode id c pOks p => exact applyDroppingNode_disksOK s id c pOks p h
  | droppedNode id r p =>
    show disksOK (applyDroppedNode s id r p).1.allDisks
    rw [applyDroppedNode_allDisks]
    exact h
  | heartbeat id now interval => exact applyHeartbeat_disksOK s id now interval h

/-- C3 (counterexample): from a state satisfying the invariant, making disk
10 readonly, starting to drop it and then committing a direct
SetStatus(Dropped) leaves the disk Dropped with its dropping flag still set,
so the claimed invariant fails over the listed operations as stated. -/
theorem runOps_droppedNotDropping_counterexample :
    droppedNotDropping exState ∧
    (runOps exState exBreakOps).getDisk 10 =
      some { exDisk10 with
              status := DiskStatus.dropped
              readonly := true
              dropping := true } ∧
    ¬ droppedNotDropping (runOps exState exBreakOps) := by decide

/-- C3 (amended): for every disk and after every sequence of the listed
manager operations in which no SetStatus is committed with target status
Dropped (so that status only becomes Dropped through applyDroppedDisk), if a
disk's status is Dropped then its dropping flag is false, provided the
invariant held initially. -/
theorem runOps_droppedNotDropping (s : MgrState) (ops : List Op)
    (h0 : droppedNotDropping s) (hops : ∀ op ∈ ops, goodOp op) :
    droppedNotDropping (runOps s ops) := by
  induction ops generalizing s with
  | nil => exact h0
  | cons op rest ih =>
    exact ih (stepOp s op)
      (stepOp_disksOK s op (hops op (List.mem_cons_self op rest)) h0)
      (fun o ho => hops o (List.mem_cons_of_mem op ho))

/-- Witness for the amended C3 theorem: the drain of disk 10 through
applyDroppedDisk keeps the invariant. -/
theorem runOps_droppedNotDropping_witness :
    droppedNotDropping exState ∧ (∀ op ∈ exDrainOps, goodOp op) ∧
      droppedNotDropping (runOps exState exDrainOps) :=
  ⟨by decide, by decide,
    runOps_droppedNotDropping exState exDrainOps (by decide) (by decide)⟩

theorem getDisk_updateDisk {s : MgrState} {id : DiskID} {v : diskItem}
    (h : s.getDisk id = some v) (d : diskItem) :
    (s.updateDisk id d).getDisk id = some d :=
  assocFind_updateAssoc h

/-- C1: for every registered disk whose status differs from the requested
one, SetStatus in pre-check mode returns ChangeDiskStatusNotAllow exactly
when the ordinal ladder is violated, a jump to Dropped is always accepted,
and a dropping disk rejects every non-Dropped target. -/
theorem SetStatus_precheck_spec (s : MgrState) (id : DiskID) (st : DiskStatus)
    (p : Bool) (disk : diskItem) (hd : s.getDisk id = some disk)
    (hne : disk.status ≠ st) :
    (disk.dropping = false →
      ((SetStatus s id st false p).2 = some CMErr.changeDiskStatusNotAllow ↔
        validSetStatus st < validSetStatus disk.status ∨
          (validSetStatus disk.status + 1 < validSetStatus st ∧
            st ≠ DiskStatus.dropped))) ∧
    (disk.dropping = false → st = DiskStatus.dropped →
      (SetStatus s id st false p).2 = none) ∧
    (disk.dropping = true → st ≠ DiskStatus.dropped →
      (SetStatus s id st false p).2 = some CMErr.changeDiskStatusNotAllow) := by
  unfold SetStatus
  rw [hd]
  refine ⟨?_, ?_, ?_⟩
  · intro hdrop
    by_cases hladder : validSetStatus st < validSetStatus disk.status ∨
        (validSetStatus disk.status + 1 < validSetStatus st ∧ st ≠ DiskStatus.dropped)
    · simp [hne, hdrop, hladder]
    · simp [hne, hdrop, hladder]
  · intro hdrop hst
    subst hst
    have hladder : ¬ (validSetStatus DiskStatus.dropped < validSetStatus disk.status ∨
        (validSetStatus disk.status + 1 < validSetStatus DiskStatus.dropped ∧
          DiskStatus.dropped ≠ DiskStatus.dropped)) := by
      cases disk.status <;> simp [validSetStatus]
    have h1 : ¬ validSetStatus DiskStatus.dropped < validSetStatus disk.status :=
      fun hh => hladder (Or.inl hh)
    simp [hne, hdrop, h1]
  · intro hdrop hst
    simp [hne, hdrop, hst]

/-- Witness for the C1 theorem at a concrete backward step: a Repairing disk
asked to go back to Normal in pre-check. -/
theorem SetStatus_precheck_spec_witness :
    exStateRepairing.getDisk 10 = some exDisk10Repairing ∧
    exDisk10Repairing.status ≠ DiskStatus.normal ∧
    exDisk10Repairing.dropping = false ∧
    ((SetStatus exStateRepairing 10 DiskStatus.normal false true).2 =
        some CMErr.changeDiskStatusNotAllow ↔
      validSetStatus DiskStatus.normal < validSetStatus exDisk10Repairing.status ∨
        (validSetStatus exDisk10Repairing.status + 1 <
            validSetStatus DiskStatus.normal ∧
          DiskStatus.normal ≠ DiskStatus.dropped)) :=
  ⟨by decide, by decide, by decide,
    (SetStatus_precheck_spec exStateRepairing 10 DiskStatus.normal true
      exDisk10Repairing (by decide) (by decide)).1 (by decide)⟩

/-- C5 (counterexample): a backward SetStatus committed on disk 10 at
Repairing returns nil but the status does change to Normal, contradicting
the claim that commit-mode ladder violations leave the disk unchanged. -/
theorem SetStatus_commit_violation_counterexample :
    exStateRepairing.getDisk 10 = some exDisk10Repairing ∧
    exDisk10Repairing.status = DiskStatus.repairing ∧
    validSetStatus DiskStatus.normal < validSetStatus DiskStatus.repairing ∧
    (SetStatus exStateRepairing 10 DiskStatus.normal true true).2 = none ∧
    (SetStatus exStateRepairing 10 DiskStatus.normal true true).1.getDisk 10 =
      some { exDisk10Repairing with status := DiskStatus.normal } := by decide

theorem validSetStatus_lt_imp_ne {st other : DiskStatus}
    (h : validSetStatus st < validSetStatus other) : st ≠ DiskStatus.dropped := by
  intro he
  subst he
  cases other <;> simp [validSetStatus] at h

/-- C5 (amended): every ladder-violating SetStatus committed with a
successful persistence call returns nil and applies the requested status
anyway (the violation is only warned): the disk's status becomes the
requested value, and when the new status is no longer filterable the
(host, path) filter key is erased and the disk is removed from its DiskSet
when its node is registered. -/
theorem SetStatus_commit_violation_applies (s : MgrState) (id : DiskID)
    (st : DiskStatus) (disk : diskItem) (hd : s.getDisk id = some disk)
    (hne : disk.status ≠ st)
    (hviol : (disk.dropping = true ∧ st ≠ DiskStatus.dropped) ∨
      validSetStatus st < validSetStatus disk.status ∨
        (validSetStatus disk.status + 1 < validSetStatus st ∧
          st ≠ DiskStatus.dropped)) :
    (SetStatus s id st true true).2 = none ∧
    (SetStatus s id st true true).1.getDisk id = some { disk with status := st } ∧
    (SetStatus s id st true true).1.hostPathFilter =
      (if ({ disk with status := st } : diskItem).needFilter = false then
        s.hostPathFilter.erase (disk.host, disk.path)
      else s.hostPathFilter) ∧
    (SetStatus s id st true true).1.diskSetMembers =
      (if (s.getNode disk.nodeID).isSome = true ∧
          ({ disk with status := st } : diskItem).needFilter = false then
        s.diskSetMembers.erase id
      else s.diskSetMembers) := by
  have hstne : st ≠ DiskStatus.dropped := by
    rcases hviol with ⟨_, h⟩ | h | ⟨_, h⟩
    · exact h
    · exact validSetStatus_lt_imp_ne h
    · exact h
  have hd' : assocFind id s.allDisks = some disk := hd
  refine ⟨?_, ?_, ?_, ?_⟩ <;>
    · unfold SetStatus
      rw [hd]
      simp [hne, hstne, ite_self, MgrState.getDisk, MgrState.updateDisk,
        MgrState.persistTick, diskItem.genFilterKey,
        apply_ite MgrState.allDisks, apply_ite MgrState.hostPathFilter,
        apply_ite MgrState.diskSetMembers, apply_ite (assocFind id),
        assocFind_updateAssoc hd']

/-- Witness for the amended C5 theorem at the concrete backward step. -/
theorem SetStatus_commit_violation_applies_witness :
    exStateRepairing.getDisk 10 = some exDisk10Repairing ∧
    exDisk10Repairing.status ≠ DiskStatus.normal ∧
    validSetStatus DiskStatus.normal < validSetStatus exDisk10Repairing.status ∧
    (SetStatus exStateRepairing 10 DiskStatus.normal true true).2 = none ∧
    (SetStatus exStateRepairing 10 DiskStatus.normal true true).1.getDisk 10 =
      some { exDisk10Repairing with status := DiskStatus.normal } :=
  ⟨by decide, by decide, by decide,
    (SetStatus_commit_violation_applies exStateRepairing 10 DiskStatus.normal
      exDisk10Repairing (by decide) (by decide) (Or.inr (Or.inl (by decide)))).1,
    (SetStatus_commit_violation_applies exStateRepairing 10 DiskStatus.normal
      exDisk10Repairing (by decide) (by decide) (Or.inr (Or.inl (by decide)))).2.1⟩

/-- C7: CheckDiskInfoDuplicated returns Ok for a compatible re-registration
(existing disk with invalid node_id, valid incoming node_id, matching
host/idc/rack), AlreadyExists for any other existing disk, IllegalArgument
for a fresh disk whose (host, path) key collides in host_path_filter, and Ok
otherwise. -/
theorem CheckDiskInfoDuplicated_spec (s : MgrState) (diskID : DiskID)
    (reqNodeID : NodeID) (reqPath : Nat) (nodeHost nodeIdc nodeRack : Nat) :
    (∀ di, s.getDisk diskID = some di →
      di.nodeID = invalidNodeID → reqNodeID ≠ invalidNodeID →
      di.host = nodeHost → di.idc = nodeIdc → di.rack = nodeRack →
      CheckDiskInfoDuplicated s diskID reqNodeID reqPath nodeHost nodeIdc nodeRack =
        none) ∧
    (∀ di, s.getDisk diskID = some di →
      ¬(di.nodeID = invalidNodeID ∧ reqNodeID ≠ invalidNodeID ∧
        di.host = nodeHost ∧ di.idc = nodeIdc ∧ di.rack = nodeRack) →
      CheckDiskInfoDuplicated s diskID reqNodeID reqPath nodeHost nodeIdc nodeRack =
        some CMErr.exist) ∧
    (s.getDisk diskID = none → (nodeHost, reqPath) ∈ s.hostPathFilter →
      CheckDiskInfoDuplicated s diskID reqNodeID reqPath nodeHost nodeIdc nodeRack =
        some CMErr.illegalArguments) ∧
    (s.getDisk diskID = none → (nodeHost, reqPath) ∉ s.hostPathFilter →
      CheckDiskInfoDuplicated s diskID reqNodeID reqPath nodeHost nodeIdc nodeRack =
        none) := by
  refine ⟨?_, ?_, ?_, ?_⟩
  · intro di hd h1 h2 h3 h4 h5
    unfold CheckDiskInfoDuplicated
    rw [hd]
    simp [h1, h2, h3, h4, h5]
  · intro di hd hnot
    unfold CheckDiskInfoDuplicated
    rw [hd]
    simp [hnot]
  · intro hd hmem
    unfold CheckDiskInfoDuplicated
    rw [hd]
    simp [hmem]
  · intro hd hmem
    unfold CheckDiskInfoDuplicated
    rw [hd]
    simp [hmem]

/-- Witness for the C7 theorem: registering disk 11 at the occupied
(host, path) key yields IllegalArgument. -/
theorem CheckDiskInfoDuplicated_spec_witness :
    exState.getDisk 11 = none ∧ (1, 1) ∈ exState.hostPathFilter ∧
    CheckDiskInfoDuplicated exState 11 1 1 1 1 1 = some CMErr.illegalArguments :=
  ⟨by decide, by decide,
    (CheckDiskInfoDuplicated_spec exState 11 1 1 1 1 1).2.2.1 (by decide) (by decide)⟩

/-- C9: applySwitchReadonly is a no-op without a persistence call when the
bit already matches, sets the bit and returns nil when persistence succeeds,
and returns the error with the in-memory bit rolled back (the disk map
unchanged) when persistence fails. -/
theorem applySwitchReadonly_spec (s : MgrState) (id : DiskID) (ro p : Bool)
    (disk : diskItem) (hd : s.getDisk id = some disk) :
    (disk.readonly = ro → applySwitchReadonly s id ro p = (s, none)) ∧
    (disk.readonly ≠ ro →
      (applySwitchReadonly s id ro true).2 = none ∧
      (applySwitchReadonly s id ro true).1.getDisk id =
        some { disk with readonly := ro } ∧
      (applySwitchReadonly s id ro true).1.persistCalls = s.persistCalls + 1) ∧
    (disk.readonly ≠ ro →
      (applySwitchReadonly s id ro false).2 = some CMErr.persistErr ∧
      (applySwitchReadonly s id ro false).1.allDisks = s.allDisks ∧
      (applySwitchReadonly s id ro false).1.persistCalls = s.persistCalls + 1) := by
  have hd' : assocFind id s.allDisks = some disk := hd
  refine ⟨?_, ?_, ?_⟩
  · intro he
    unfold applySwitchReadonly
    rw [hd]
    simp [he]
  · intro hne
    unfold applySwitchReadonly
    rw [hd]
    simp [hne, MgrState.getDisk, MgrState.updateDisk, MgrState.persistTick,
      assocFind_updateAssoc hd']
  · intro hne
    unfold applySwitchReadonly
    rw [hd]
    simp [hne, MgrState.persistTick]

/-- Witness for the C9 theorem: switching disk 10 to readonly succeeds. -/
theorem applySwitchReadonly_spec_witness :
    exState.getDisk 10 = some exDisk10 ∧ exDisk10.readonly ≠ true ∧
    (applySwitchReadonly exState 10 true true).2 = none ∧
    (applySwitchReadonly exState 10 true true).1.getDisk 10 =
      some { exDisk10 with readonly := true } :=
  ⟨by decide, by decide,
    ((applySwitchReadonly_spec exState 10 true true exDisk10 (by decide)).2.1
      (by decide)).1,
    ((applySwitchReadonly_spec exState 10 true true exDisk10 (by decide)).2.1
      (by decide)).2.1⟩

/-- C10: for a registered node that is not in using status or already
dropping, applyDroppingNode returns the "already" indicator with a nil error
(no NodeIsDropping propagated) and leaves the state unchanged, for both
pre-check and commit modes. -/
theorem applyDroppingNode_already_spec (s : MgrState) (nid : NodeID) (c : Bool)
    (pOks : List Bool) (p : Bool) (node : nodeItem)
    (hn : s.getNode nid = some node)
    (h : node.isUsingStatus = false ∨ node.dropping = true) :
    applyDroppingNode s nid c pOks p = (s, true, none) := by
  unfold applyDroppingNode
  rw [hn]
  simp [h]

/-- Witness for the C10 theorem on the already-dropping node 1. -/
theorem applyDroppingNode_already_spec_witness :
    exStateDropNode.getNode 1 = some exNode1Dropping ∧
    (exNode1Dropping.isUsingStatus = false ∨ exNode1Dropping.dropping = true) ∧
    applyDroppingNode exStateDropNode 1 true [] true =
      (exStateDropNode, true, none) :=
  ⟨by decide, by decide,
    applyDroppingNode_already_spec exStateDropNode 1 true [] true exNode1Dropping
      (by decide) (by decide)⟩

/-- C4: an expired, still-filterable disk contributes its alive=false event
to GetHeartbeatChangeDisks exactly while now - expire_time stays below twice
the heartbeat expire interval, and is skipped (contributes nothing) once that
bound is reached, so later sweeps emit no further alive=false events for
it. -/
theorem GetHeartbeatChangeDisks_expired_spec (s : MgrState) (now interval : Int)
    (disk : diskItem) (hmem : disk ∈ s.allDisks.map Prod.snd)
    (hexp : disk.isExpire now = true) (hfil : disk.needFilter = true) :
    (now - disk.expireTime < 2 * interval →
      ({ diskID := disk.diskID, isAlive := false } : HeartbeatEvent) ∈
        GetHeartbeatChangeDisks s now interval) ∧
    (2 * interval ≤ now - disk.expireTime →
      heartbeatEventFor interval now disk = none) := by
  constructor
  · intro hlt
    unfold GetHeartbeatChangeDisks
    refine List.mem_filterMap.2 ⟨disk, hmem, ?_⟩
    unfold heartbeatEventFor
    rw [if_pos ⟨hexp, hfil⟩, if_neg (not_le.2 hlt)]
  · intro hge
    unfold heartbeatEventFor
    rw [if_pos ⟨hexp, hfil⟩, if_pos hge]

/-- Witness for the C4 theorem: disk 10 expired at time 5, swept at time 10
with a 60 second interval, emits its alive=false event. -/
theorem GetHeartbeatChangeDisks_expired_spec_witness :
    exDisk10Expired ∈ exStateExpired.allDisks.map Prod.snd ∧
    exDisk10Expired.isExpire 10 = true ∧
    exDisk10Expired.needFilter = true ∧
    ({ diskID := 10, isAlive := false } : HeartbeatEvent) ∈
      GetHeartbeatChangeDisks exStateExpired 10 60 :=
  ⟨by decide, by decide, by decide,
    (GetHeartbeatChangeDisks_expired_spec exStateExpired 10 60 exDisk10Expired
      (by decide) (by decide) (by decide)).1 (by decide)⟩

theorem getNode_updateNode {s : MgrState} {nid : NodeID} {v : nodeItem}
    (h : s.getNode nid = some v) (n : nodeItem) :
    (s.updateNode nid n).getNode nid = some n :=
  assocFind_updateAssoc h

/-- C6: applyDroppingDisk returns the "already" indicator with no error and
changes nothing when the disk is already dropping; otherwise a disk that is
not Normal or not readonly is rejected in pre-check with
DiskAbnormalOrNotReadOnly and no state change; otherwise the commit path
appends the dropping-list entry, sets the dropping flag, and removes the
disk from its DiskSet when its node is registered. -/
theorem applyDroppingDisk_spec (s : MgrState) (id : DiskID) (c p : Bool)
    (disk : diskItem) (hd : s.getDisk id = some disk) :
    (disk.dropping = true → applyDroppingDisk s id c p = (s, true, none)) ∧
    (disk.dropping = false →
      (disk.status ≠ DiskStatus.normal ∨ disk.readonly = false) →
      applyDroppingDisk s id false p =
        (s, false, some CMErr.diskAbnormalOrNotReadOnly)) ∧
    (disk.dropping = false → disk.status = DiskStatus.normal →
      disk.readonly = true →
      (applyDroppingDisk s id true true).2.1 = false ∧
      (applyDroppingDisk s id true true).2.2 = none ∧
      (applyDroppingDisk s id true true).1.droppingDisks =
        s.droppingDisks ++ [id] ∧
      (applyDroppingDisk s id true true).1.getDisk id =
        some { disk with dropping := true } ∧
      ((s.getNode disk.nodeID).isSome = true →
        (applyDroppingDisk s id true true).1.diskSetMembers =
          s.diskSetMembers.erase id)) := by
  have hd' : assocFind id s.allDisks = some disk := hd
  refine ⟨?_, ?_, ?_⟩
  · intro hdrop
    unfold applyDroppingDisk
    rw [hd]
    simp [hdrop]
  · intro hdrop habn
    unfold applyDroppingDisk
    rw [hd]
    simp [hdrop, habn]
  · intro hdrop hst hro
    have habn : ¬(disk.status ≠ DiskStatus.normal ∨ disk.readonly = false) := by
      simp [hst, hro]
    cases hn : s.getNode disk.nodeID with
    | none =>
      unfold applyDroppingDisk
      rw [hd]
      simp [hdrop, habn, hn, MgrState.getDisk, MgrState.updateDisk,
        MgrState.persistTick, assocFind_updateAssoc hd']
    | some nd =>
      unfold applyDroppingDisk
      rw [hd]
      simp [hdrop, habn, hn, MgrState.getDisk, MgrState.updateDisk,
        MgrState.persistTick, assocFind_updateAssoc hd']

/-- Witness for the C6 theorem: the readonly Normal disk 10 is marked
dropping in commit mode. -/
theorem applyDroppingDisk_spec_witness :
    exStateReadonly.getDisk 10 = some exDisk10Readonly ∧
    exDisk10Readonly.dropping = false ∧
    exDisk10Readonly.status = DiskStatus.normal ∧
    exDisk10Readonly.readonly = true ∧
    (applyDroppingDisk exStateReadonly 10 true true).1.droppingDisks =
      exStateReadonly.droppingDisks ++ [10] ∧
    (applyDroppingDisk exStateReadonly 10 true true).1.getDisk 10 =
      some { exDisk10Readonly with dropping := true } :=
  ⟨by decide, by decide, by decide, by decide,
    ((applyDroppingDisk_spec exStateReadonly 10 true true exDisk10Readonly
      (by decide)).2.2 (by decide) (by decide) (by decide)).2.2.1,
    ((applyDroppingDisk_spec exStateReadonly 10 true true exDisk10Readonly
      (by decide)).2.2 (by decide) (by decide) (by decide)).2.2.2.1⟩

/-- C8: for a node recorded in the dropping-node list, applyDroppedNode
returns nil and changes nothing when some disk of the node is still
filterable, and otherwise persists dropped_node, sets the node status to
Dropped, clears its dropping flag and removes it from its NodeSet. -/
theorem applyDroppedNode_spec (s : MgrState) (nid : NodeID) (p : Bool)
    (node : nodeItem) (hn : s.getNode nid = some node)
    (hin : nid ∈ s.droppingNodes) :
    ((∃ did ∈ node.disks, diskStillFilterable s did = true) →
      applyDroppedNode s nid true p = (s, none)) ∧
    ((∀ did ∈ node.disks, diskStillFilterable s did = false) →
      (applyDroppedNode s nid true true).2 = none ∧
      (applyDroppedNode s nid true true).1.getNode nid =
        some { node with status := NodeStatus.dropped, dropping := false } ∧
      (applyDroppedNode s nid true true).1.nodeSetMembers =
        s.nodeSetMembers.erase nid ∧
      (applyDroppedNode s nid true true).1.droppingNodes =
        s.droppingNodes.erase nid) := by
  have hn' : assocFind nid s.allNodes = some node := hn
  constructor
  · intro hex
    have ha : node.disks.any (diskStillFilterable s) = true :=
      List.any_eq_true.2 hex
    unfold applyDroppedNode
    rw [hn]
    simp [hin, ha]
  · intro hall
    have ha : node.disks.any (diskStillFilterable s) = false := by
      rw [List.any_eq_false]
      intro did hdid
      simp [hall did hdid]
    unfold applyDroppedNode
    rw [hn]
    simp [hin, ha, MgrState.getNode, MgrState.updateNode, MgrState.persistTick,
      assocFind_updateAssoc hn']

/-- Witness for the C8 theorem: node 1 with its single Dropped disk is
dropped from the cluster. -/
theorem applyDroppedNode_spec_witness :
    exStateDropNode.getNode 1 = some exNode1Dropping ∧
    1 ∈ exStateDropNode.droppingNodes ∧
    (∀ did ∈ exNode1Dropping.disks, diskStillFilterable exStateDropNode did = false) ∧
    (applyDroppedNode exStateDropNode 1 true true).2 = none ∧
    (applyDroppedNode exStateDropNode 1 true true).1.getNode 1 =
      some { exNode1Dropping with status := NodeStatus.dropped, dropping := false } :=
  ⟨by decide, by decide, by decide,
    ((applyDroppedNode_spec exStateDropNode 1 true exNode1Dropping (by decide)
      (by decide)).2 (by decide)).1,
    ((applyDroppedNode_spec exStateDropNode 1 true exNode1Dropping (by decide)
      (by decide)).2 (by decide)).2.1⟩

/-- C2: in host-aware mode, with 3 IDCs of 4 hosts each, every host
holding free space of exactly 10 items, and the largest code mode having
N+M+L = 12 (so idc_su_count = 4), the stripe-packing estimator yields 10
stripes per IDC and the writable space is 10 * N * item_size. -/
theorem calculateWritable_hostAware_example (itemSize n m l : Nat)
    (hpos : 0 < itemSize) (hsum : n + m + l = 12) :
    calculateWritableHostAware
      [[10 * itemSize, 10 * itemSize, 10 * itemSize, 10 * itemSize],
       [10 * itemSize, 10 * itemSize, 10 * itemSize, 10 * itemSize],
       [10 * itemSize, 10 * itemSize, 10 * itemSize, 10 * itemSize]]
      3 (n + m + l) n itemSize = 10 * n * itemSize := by
  have htok : 10 * itemSize / itemSize = 10 := Nat.mul_div_cancel 10 hpos
  have hcal : calIDCWritable 4
      [10 * itemSize, 10 * itemSize, 10 * itemSize, 10 * itemSize] itemSize = 10 := by
    unfold calIDCWritable
    simp only [List.map_cons, List.map_nil, htok]
    decide
  rw [hsum]
  unfold calculateWritableHostAware
  norm_num [hcal]

/-- Witness for the C2 theorem with item_size 1 and the 9+3+0 code mode. -/
theorem calculateWritable_hostAware_example_witness :
    0 < 1 ∧ 9 + 3 + 0 = 12 ∧
    calculateWritableHostAware
      [[10, 10, 10, 10], [10, 10, 10, 10], [10, 10, 10, 10]]
      3 (9 + 3 + 0) 9 1 = 10 * 9 * 1 :=
  ⟨by decide, by decide,
    calculateWritable_hostAware_example 1 9 3 0 (by decide) (by decide)⟩
